import Mathlib

/-!
Verification of the host-metadata collection core (`src/collection/system_info.rs`).

The source assembles a best-effort `SystemInfo` snapshot from an external
OS-facts provider (the `sys_info` crate, `gethostname`, and the repository's
`util` core-counting helpers) and renders it as a YAML document via
`serde_yaml` 0.8.  The external provider is modelled as an explicit record of
retrieval outcomes (`Provider`), and the build-time `cfg(target_os = "linux")`
gate as an explicit `Platform` parameter, so that every combination of
provider outcomes is quantifiable.  Machine integers (`u64`) are modelled as
`Nat`; no claim involves overflow.
-/

/-- Models the `sys_info::MemInfo` record returned by the single combined
`sys_info::mem_info()` retrieval (all quantities in kilobytes). -/
structure MemInfo where
  total : Nat
  free : Nat
  avail : Nat
  buffers : Nat
  cached : Nat
  swap_total : Nat
  swap_free : Nat

/-- Models `sys_info::LinuxOSReleaseInfo`: the parsed os-release descriptor,
a flat key-to-optional-string mapping.  The source destructures exactly the
eleven identity keys and discards the crate's remaining fields with `..`;
two representative extra fields are kept here to model that the descriptor
carries more keys than the eleven the source copies. -/
structure LinuxOSReleaseInfo where
  id : Option String
  id_like : Option String
  name : Option String
  pretty_name : Option String
  version : Option String
  version_id : Option String
  version_codename : Option String
  cpe_name : Option String
  build_id : Option String
  variant : Option String
  variant_id : Option String
  ansi_color : Option String := none
  home_url : Option String := none

/-- Models one build configuration: the source gates `Distribution::get_inner`
with `#[cfg(target_os = "linux")]` / `#[cfg(not(target_os = "linux"))]`, a
build-time selection between two function bodies. -/
inductive Platform
  | linux
  | notLinux
deriving DecidableEq

/-- Models the external OS-facts provider consumed by `SystemInfo::get`: one
outcome per underlying retrieval.  `Except Unit` models Rust `Result` (the
error payload's content is never inspected by the source).  `num_cores` and
`num_available_cores` model the repository's `util::num_cores` /
`util::num_available_cores`.  Modelled from the spec: the `util` module is not
under `src/`; per the spec these are "always-defined numeric" getters (a total
`u64`, with a provider-defined numeric fallback baked into the value), so they
are modelled as plain `Nat` outcomes that cannot fail. -/
structure Provider where
  os_type : Except Unit String
  os_release : Except Unit String
  mem_info : Except Unit MemInfo
  hostname : Except Unit String
  num_cores : Nat
  num_available_cores : Nat
  cpu_speed : Except Unit Nat
  linux_os_release : Except Unit LinuxOSReleaseInfo

/-- Embeds the `Distribution` struct of the source: os-release-style Linux
distribution identity, eleven independently optional string fields. -/
structure Distribution where
  id : Option String
  id_like : Option String
  name : Option String
  pretty_name : Option String
  version : Option String
  version_id : Option String
  version_codename : Option String
  cpe_name : Option String
  build_id : Option String
  variant : Option String
  variant_id : Option String
deriving DecidableEq

/-- Embeds the `SystemInfo` struct of the source, in field declaration
order.  `u64` fields are modelled as `Nat`. -/
structure SystemInfo where
  os_type : Option String
  os_release : Option String
  distribution : Option Distribution
  memory_total : Option Nat
  swap_total : Option Nat
  hostname : Option String
  cpu_count : Nat
  cpu_online_count : Nat
  cpu_speed : Option Nat
deriving DecidableEq

/-- Embeds `Distribution::get_inner`.  The two `#[cfg]`-selected bodies of the
source become a match on the build `Platform`: the non-Linux body is the
constant `None`; the Linux body matches on the `sys_info::linux_os_release()`
outcome and copies the eleven identity fields 1:1 on success. -/
def Distribution.get_inner (plat : Platform) (p : Provider) : Option Distribution :=
  match plat with
  | Platform.notLinux => none
  | Platform.linux =>
    match p.linux_os_release with
    | Except.error _ => none
    | Except.ok info =>
      some { id := info.id
             id_like := info.id_like
             name := info.name
             pretty_name := info.pretty_name
             version := info.version
             version_id := info.version_id
             version_codename := info.version_codename
             cpe_name := info.cpe_name
             build_id := info.build_id
             variant := info.variant
             variant_id := info.variant_id }

/-- Embeds `Distribution::try_get`: delegates to `get_inner`. -/
def Distribution.try_get (plat : Platform) (p : Provider) : Option Distribution :=
  Distribution.get_inner plat p

/-- Embeds `SystemInfo::get`: one combined `mem_info` retrieval shared by the
two memory fields, `.ok()` (= `Except.toOption`) on each fallible retrieval,
and the two total numeric core counts taken as-is. -/
def SystemInfo.get (plat : Platform) (p : Provider) : SystemInfo :=
  let mem_info := p.mem_info
  { os_type := p.os_type.toOption
    os_release := p.os_release.toOption
    distribution := Distribution.try_get plat p
    memory_total := (mem_info.map MemInfo.total).toOption
    swap_total := (mem_info.map MemInfo.swap_total).toOption
    hostname := p.hostname.toOption
    cpu_count := p.num_cores
    cpu_online_count := p.num_available_cores
    cpu_speed := p.cpu_speed.toOption }

/-- A provider on which every fallible retrieval fails, with core counts
`n` and `m`: the worst case for a collection call. -/
def failAll (n m : Nat) : Provider :=
  { os_type := Except.error ()
    os_release := Except.error ()
    mem_info := Except.error ()
    hostname := Except.error ()
    num_cores := n
    num_available_cores := m
    cpu_speed := Except.error ()
    linux_os_release := Except.error () }

/-- Decimal rendering of an unsigned integer, as the yaml emitter prints
`u64` values (most significant digit first, no sign, no padding). -/
def natDecAux (n : Nat) (acc : List Char) : List Char :=
  if n < 10 then Nat.digitChar n :: acc
  else natDecAux (n / 10) (Nat.digitChar (n % 10) :: acc)
termination_by n
decreasing_by exact Nat.div_lt_self (by omega) (by omega)

/-- Decimal rendering of a `Nat` as a string. -/
def natDec (n : Nat) : String :=
  String.mk (natDecAux n [])

/-- The backslash character. -/
def bslash : Char := '\\'

/-- Hexadecimal digit characters used by the emitter's escapes. -/
def hexDigits : List Char := "0123456789abcdef".data

/-- The hexadecimal digit for `n % 16`. -/
def hexDigit (n : Nat) : Char := hexDigits.getD (n % 16) '0'

/-- Models the yaml emitter's double-quoted escaping of one character:
quote, backslash and control characters become backslash escapes; everything
else is emitted verbatim.  No branch ever emits a raw newline. -/
def escChar (c : Char) : List Char :=
  let n := c.toNat
  if n = 34 then [bslash, Char.ofNat 34]
  else if n = 92 then [bslash, bslash]
  else if n = 10 then [bslash, 'n']
  else if n = 9 then [bslash, 't']
  else if n = 13 then [bslash, 'r']
  else if n < 32 then [bslash, 'x', hexDigit (n / 16), hexDigit (n % 16)]
  else [c]

/-- The double-quoted form of a string scalar. -/
def escapeStr (s : String) : String :=
  String.mk (s.data.flatMap escChar)

/-- Characters whose presence anywhere in a plain scalar forces quoting
(yaml indicator characters, quotes, backslash and all control characters,
newline included). -/
def needQuotesChar (c : Char) : Bool :=
  let n := c.toNat
  n == 58 || n == 123 || n == 125 || n == 91 || n == 93 || n == 44 || n == 35 ||
  n == 96 || n == 34 || n == 39 || n == 92 ||
  n ≤ 6 || n == 9 || n == 10 || n == 13 || (14 ≤ n && n ≤ 26) ||
  (28 ≤ n && n ≤ 31)

/-- Characters that force quoting when they start the scalar. -/
def needQuotesFirst (c : Char) : Bool :=
  let n := c.toNat
  n == 38 || n == 42 || n == 63 || n == 124 || n == 45 || n == 60 || n == 62 ||
  n == 61 || n == 33 || n == 37 || n == 64 || n == 46

/-- Words reserved by yaml (booleans and nulls) that must be quoted to stay
strings. -/
def yamlReserved : List String :=
  ["true", "false", "yes", "no", "True", "False", "Yes", "No",
   "TRUE", "FALSE", "YES", "NO", "null", "Null", "NULL", "~"]

/-- Conservative model of the emitter's numeric-literal test (a plain scalar
that would parse as a number must be quoted). -/
def numericLike (l : List Char) : Bool :=
  (!l.isEmpty) &&
  l.all (fun c => c.isDigit || c.toNat == 43 || c.toNat == 45 ||
                  c.toNat == 46 || c.toNat == 101 || c.toNat == 69) &&
  l.any (fun c => c.isDigit)

/-- Models the yaml emitter's decision to quote a string scalar. -/
def need_quotes (s : String) : Bool :=
  s.data.isEmpty ||
  (match s.data with | c :: _ => c == ' ' || needQuotesFirst c | [] => false) ||
  (match s.data.getLast? with | some c => c == ' ' | none => false) ||
  s.data.any needQuotesChar ||
  yamlReserved.contains s ||
  numericLike s.data

/-- Models the emitted form of a string scalar: plain when safe, otherwise
double-quoted with escapes. -/
def emitStr (s : String) : String :=
  if need_quotes s then String.mk (Char.ofNat 34 :: []) ++ escapeStr s ++ String.mk (Char.ofNat 34 :: [])
  else s

/-- The emitted form of an optional string field: absent values are the
explicit yaml null marker. -/
def emitOptStr : Option String → String
  | none => "~"
  | some v => emitStr v

/-- The emitted form of an optional numeric field. -/
def emitOptNat : Option Nat → String
  | none => "~"
  | some n => natDec n

/-- One `Key: value` output line. -/
def serdeLine (key v : String) : String :=
  key ++ ": " ++ v

/-- Models the serde field-renaming attribute: the output lines of a
`Distribution` value, one per field in declaration order, keys in PascalCase. -/
def Distribution.yamlLines (d : Distribution) : List String :=
  [serdeLine "Id" (emitOptStr d.id),
   serdeLine "IdLike" (emitOptStr d.id_like),
   serdeLine "Name" (emitOptStr d.name),
   serdeLine "PrettyName" (emitOptStr d.pretty_name),
   serdeLine "Version" (emitOptStr d.version),
   serdeLine "VersionId" (emitOptStr d.version_id),
   serdeLine "VersionCodename" (emitOptStr d.version_codename),
   serdeLine "CpeName" (emitOptStr d.cpe_name),
   serdeLine "BuildId" (emitOptStr d.build_id),
   serdeLine "Variant" (emitOptStr d.variant),
   serdeLine "VariantId" (emitOptStr d.variant_id)]

/-- The output lines for the nested `Distribution` field: an absent value is
the explicit null marker on the `Distribution` key; a present value is the
bare `Distribution:` key followed by the nested block indented two spaces. -/
def distBlockLines : Option Distribution → List String
  | none => [serdeLine "Distribution" "~"]
  | some d => "Distribution:" :: d.yamlLines.map (fun l => "  " ++ l)

/-- The output lines of a `SystemInfo` value, one per field in declaration
order, keys renamed to PascalCase. -/
def SystemInfo.yamlLines (s : SystemInfo) : List String :=
  [serdeLine "OsType" (emitOptStr s.os_type),
   serdeLine "OsRelease" (emitOptStr s.os_release)]
  ++ distBlockLines s.distribution
  ++ [serdeLine "MemoryTotal" (emitOptNat s.memory_total),
      serdeLine "SwapTotal" (emitOptNat s.swap_total),
      serdeLine "Hostname" (emitOptStr s.hostname),
      serdeLine "CpuCount" (natDec s.cpu_count),
      serdeLine "CpuOnlineCount" (natDec s.cpu_online_count),
      serdeLine "CpuSpeed" (emitOptNat s.cpu_speed)]

/-- Joins output lines with single newline separators (no trailing
newline), as the emitter writes them. -/
def joinLines : List String → String
  | [] => ""
  | l :: [] => l
  | l :: l2 :: ls => l ++ "\n" ++ joinLines (l2 :: ls)

/-- Models `serde_yaml::to_string` (serde_yaml 0.8) on a `SystemInfo` value:
a leading document-separator line, then the key-value lines, and no trailing
newline.  For this fully-defined value graph the formatter always succeeds. -/
def serde_yaml_to_string (s : SystemInfo) : String :=
  "---\n" ++ joinLines (SystemInfo.yamlLines s)

/-- Embeds the call `serde_output.trim_start_matches("---\n")` of the
source: repeatedly strips a leading document-separator line. -/
def trimStartDocSep (s : List Char) : List Char :=
  if h : s.take 4 = ['-', '-', '-', '\n'] then trimStartDocSep (s.drop 4)
  else s
termination_by s.length
decreasing_by
  have h4 : s.length ≥ 4 := by
    have := congrArg List.length h
    simp [List.length_take] at this
    omega
  simp [List.length_drop]
  omega

/-- Embeds the body of `SystemInfo::as_yaml` as a function of the formatter
outcome: `unwrap_or_else` replaces a formatter error with the empty string,
then the top document separator is stripped and one newline appended. -/
def as_yaml_of (r : Except Unit String) : String :=
  let serde_output : String :=
    match r with
    | Except.ok out => out
    | Except.error _ => ""
  String.mk (trimStartDocSep serde_output.data) ++ "\n"

/-- Embeds `SystemInfo::as_yaml`: the formatter runs on the snapshot (always
succeeding on this value graph) and its output is post-processed. -/
def SystemInfo.as_yaml (s : SystemInfo) : String :=
  as_yaml_of (Except.ok (serde_yaml_to_string s))

/-- Whether an output line belongs to an indented nested block (its first
character is a space). -/
def isIndented (l : String) : Bool :=
  match l.data with
  | [] => false
  | c :: _ => c == ' '

/-- The key part of a `Key: value` output line: the characters before the
first colon. -/
def keyOf (l : String) : String :=
  String.mk (l.data.takeWhile (fun c => c != ':'))

/-- The keys of the top-level (unindented) lines of a rendered snapshot, in
output order. -/
def topKeys (s : SystemInfo) : List String :=
  ((SystemInfo.yamlLines s).filter (fun l => !(isIndented l))).map keyOf

/-- A snapshot with every optional field absent. -/
def allAbsentSnapshot : SystemInfo :=
  { os_type := none, os_release := none, distribution := none,
    memory_total := none, swap_total := none, hostname := none,
    cpu_count := 0, cpu_online_count := 0, cpu_speed := none }

/-- A distribution value with every key absent. -/
def sampleDistribution : Distribution :=
  { id := none, id_like := none, name := none, pretty_name := none,
    version := none, version_id := none, version_codename := none,
    cpe_name := none, build_id := none, variant := none, variant_id := none }

/-- A snapshot carrying a nested distribution block. -/
def withDistSnapshot : SystemInfo :=
  { allAbsentSnapshot with distribution := some sampleDistribution }

/-- C1: the no-argument collect operation `SystemInfo::get` always returns a
`SystemInfo` value (the embedding is a total function, so no error is ever
propagated), and for every combination of provider outcomes each failing
retrieval degrades only its own field to absent (the two CPU-count fields
always carry the provider's numeric values), while each snapshot field is
determined by its own retrieval alone. -/
theorem systemInfo_get_never_fails_per_field (plat : Platform) (p : Provider) :
    (SystemInfo.get plat p).cpu_count = p.num_cores
  ∧ (SystemInfo.get plat p).cpu_online_count = p.num_available_cores
  ∧ (p.os_type = Except.error () → (SystemInfo.get plat p).os_type = none)
  ∧ (∀ v, p.os_type = Except.ok v → (SystemInfo.get plat p).os_type = some v)
  ∧ (p.os_release = Except.error () → (SystemInfo.get plat p).os_release = none)
  ∧ (∀ v, p.os_release = Except.ok v → (SystemInfo.get plat p).os_release = some v)
  ∧ (p.hostname = Except.error () → (SystemInfo.get plat p).hostname = none)
  ∧ (∀ v, p.hostname = Except.ok v → (SystemInfo.get plat p).hostname = some v)
  ∧ (p.cpu_speed = Except.error () → (SystemInfo.get plat p).cpu_speed = none)
  ∧ (∀ v, p.cpu_speed = Except.ok v → (SystemInfo.get plat p).cpu_speed = some v)
  ∧ (p.mem_info = Except.error () →
      (SystemInfo.get plat p).memory_total = none ∧ (SystemInfo.get plat p).swap_total = none)
  ∧ (∀ q : Provider, q.os_type = p.os_type →
      (SystemInfo.get plat q).os_type = (SystemInfo.get plat p).os_type)
  ∧ (∀ q : Provider, q.os_release = p.os_release →
      (SystemInfo.get plat q).os_release = (SystemInfo.get plat p).os_release)
  ∧ (∀ q : Provider, q.mem_info = p.mem_info →
      (SystemInfo.get plat q).memory_total = (SystemInfo.get plat p).memory_total
    ∧ (SystemInfo.get plat q).swap_total = (SystemInfo.get plat p).swap_total)
  ∧ (∀ q : Provider, q.hostname = p.hostname →
      (SystemInfo.get plat q).hostname = (SystemInfo.get plat p).hostname)
  ∧ (∀ q : Provider, q.num_cores = p.num_cores →
      (SystemInfo.get plat q).cpu_count = (SystemInfo.get plat p).cpu_count)
  ∧ (∀ q : Provider, q.num_available_cores = p.num_available_cores →
      (SystemInfo.get plat q).cpu_online_count = (SystemInfo.get plat p).cpu_online_count)
  ∧ (∀ q : Provider, q.cpu_speed = p.cpu_speed →
      (SystemInfo.get plat q).cpu_speed = (SystemInfo.get plat p).cpu_speed)
  ∧ (∀ q : Provider, q.linux_os_release = p.linux_os_release →
      (SystemInfo.get plat q).distribution = (SystemInfo.get plat p).distribution) := by
  refine ⟨rfl, rfl, ?_, ?_, ?_, ?_, ?_, ?_, ?_, ?_, ?_, ?_, ?_, ?_, ?_, ?_, ?_, ?_, ?_⟩
  all_goals
    first
    | (intro h;
       simp [SystemInfo.get, Distribution.try_get, Distribution.get_inner, h,
             Except.toOption, Except.map];
       done)
    | (intro v h;
       cases plat <;>
       simp [SystemInfo.get, Distribution.try_get, Distribution.get_inner, h,
             Except.toOption, Except.map])

/-- Closed witness for C1 at a concrete failing provider. -/
theorem systemInfo_get_never_fails_per_field_witness :
    (SystemInfo.get Platform.linux (failAll 4 2)).os_type = none
  ∧ (SystemInfo.get Platform.linux (failAll 4 2)).memory_total = none
  ∧ (SystemInfo.get Platform.linux (failAll 4 2)).swap_total = none
  ∧ (SystemInfo.get Platform.linux (failAll 4 2)).cpu_count = 4 := by
  obtain ⟨h1, h2, h3, h4, h5, h6, h7, h8, h9, h10, h11, hrest⟩ :=
    systemInfo_get_never_fails_per_field Platform.linux (failAll 4 2)
  exact ⟨h3 rfl, (h11 rfl).1, (h11 rfl).2, h1⟩

/-- C2: in every snapshot produced by `SystemInfo::get`, `memory_total` and
`swap_total` are coupled through the single combined `mem_info` retrieval:
failure makes both absent, success makes both present with the retrieved
physical and swap totals; exactly one present is impossible. -/
theorem memory_swap_coupled (plat : Platform) (p : Provider) :
    ((SystemInfo.get plat p).memory_total.isSome
       = (SystemInfo.get plat p).swap_total.isSome)
  ∧ (p.mem_info = Except.error () →
      (SystemInfo.get plat p).memory_total = none
    ∧ (SystemInfo.get plat p).swap_total = none)
  ∧ (∀ m : MemInfo, p.mem_info = Except.ok m →
      (SystemInfo.get plat p).memory_total = some m.total
    ∧ (SystemInfo.get plat p).swap_total = some m.swap_total) := by
  refine ⟨?_, ?_, ?_⟩
  · cases hm : p.mem_info <;> simp [SystemInfo.get, hm, Except.toOption, Except.map]
  · intro h; simp [SystemInfo.get, h, Except.toOption, Except.map]
  · intro m h; simp [SystemInfo.get, h, Except.toOption, Except.map]

/-- Closed witness for C2 in both the failing and the succeeding case. -/
theorem memory_swap_coupled_witness :
    ((SystemInfo.get Platform.linux (failAll 4 2)).memory_total = none
   ∧ (SystemInfo.get Platform.linux (failAll 4 2)).swap_total = none)
  ∧ ((SystemInfo.get Platform.linux
        { failAll 4 2 with mem_info := Except.ok ⟨16000, 1, 2, 3, 4, 8000, 5⟩ }).memory_total
        = some 16000
   ∧ (SystemInfo.get Platform.linux
        { failAll 4 2 with mem_info := Except.ok ⟨16000, 1, 2, 3, 4, 8000, 5⟩ }).swap_total
        = some 8000) :=
  ⟨(memory_swap_coupled Platform.linux (failAll 4 2)).2.1 rfl,
   (memory_swap_coupled Platform.linux
      { failAll 4 2 with mem_info := Except.ok ⟨16000, 1, 2, 3, 4, 8000, 5⟩ }).2.2
      ⟨16000, 1, 2, 3, 4, 8000, 5⟩ rfl⟩

/-- C3: `cpu_count` and `cpu_online_count` are always present numeric values
(their field type is a plain number, never an option), equal to the provider's
total core counts, including on a provider where every other retrieval fails,
in which case every optional field is independently absent. -/
theorem cpu_counts_always_present (plat : Platform) (n m : Nat) :
    (∀ p : Provider,
      (SystemInfo.get plat p).cpu_count = p.num_cores
    ∧ (SystemInfo.get plat p).cpu_online_count = p.num_available_cores)
  ∧ (SystemInfo.get plat (failAll n m)).cpu_count = n
  ∧ (SystemInfo.get plat (failAll n m)).cpu_online_count = m
  ∧ (SystemInfo.get plat (failAll n m)).os_type = none
  ∧ (SystemInfo.get plat (failAll n m)).os_release = none
  ∧ (SystemInfo.get plat (failAll n m)).distribution = none
  ∧ (SystemInfo.get plat (failAll n m)).memory_total = none
  ∧ (SystemInfo.get plat (failAll n m)).swap_total = none
  ∧ (SystemInfo.get plat (failAll n m)).hostname = none
  ∧ (SystemInfo.get plat (failAll n m)).cpu_speed = none := by
  refine ⟨fun p => ⟨rfl, rfl⟩, rfl, rfl, rfl, rfl, ?_, rfl, rfl, rfl, rfl⟩
  cases plat <;>
    simp [SystemInfo.get, Distribution.try_get, Distribution.get_inner, failAll]

/-- C4: on a non-Linux build configuration, `Distribution::try_get` is the
constant function returning nothing: absence for every provider, and the
result never depends on the provider (the descriptor source is never
consulted; the gate is the build-time `Platform` selection). -/
theorem try_get_notLinux_constant :
    (∀ p : Provider, Distribution.try_get Platform.notLinux p = none)
  ∧ (∀ p q : Provider,
      Distribution.try_get Platform.notLinux p = Distribution.try_get Platform.notLinux q) :=
  ⟨fun _ => rfl, fun _ _ => rfl⟩

/-- C5: on a Linux build, `Distribution::try_get` is all-or-nothing: a failed
descriptor lookup yields nothing, and a successful lookup yields a
`Distribution` whose eleven fields are copied 1:1 from the parsed
descriptor's optional keys (exactly the keys present in the descriptor end up
populated). -/
theorem try_get_linux_all_or_nothing (p : Provider) :
    (p.linux_os_release = Except.error () → Distribution.try_get Platform.linux p = none)
  ∧ (∀ info : LinuxOSReleaseInfo, p.linux_os_release = Except.ok info →
      Distribution.try_get Platform.linux p =
        some { id := info.id
               id_like := info.id_like
               name := info.name
               pretty_name := info.pretty_name
               version := info.version
               version_id := info.version_id
               version_codename := info.version_codename
               cpe_name := info.cpe_name
               build_id := info.build_id
               variant := info.variant
               variant_id := info.variant_id }) := by
  refine ⟨fun h => ?_, fun info h => ?_⟩ <;>
    simp [Distribution.try_get, Distribution.get_inner, h]

/-- Closed witness for C5: a failing lookup yields nothing; a descriptor
populating only a subset of the eleven keys yields exactly that subset. -/
theorem try_get_linux_all_or_nothing_witness :
    Distribution.try_get Platform.linux (failAll 4 2) = none
  ∧ Distribution.try_get Platform.linux
      { failAll 4 2 with
        linux_os_release := Except.ok
          { id := some "ubuntu", id_like := none, name := some "Ubuntu"
            pretty_name := none, version := none, version_id := none
            version_codename := none, cpe_name := none, build_id := none
            variant := none, variant_id := none } } =
      some { id := some "ubuntu", id_like := none, name := some "Ubuntu"
             pretty_name := none, version := none, version_id := none
             version_codename := none, cpe_name := none, build_id := none
             variant := none, variant_id := none } :=
  ⟨(try_get_linux_all_or_nothing (failAll 4 2)).1 rfl,
   (try_get_linux_all_or_nothing
      { failAll 4 2 with
        linux_os_release := Except.ok
          { id := some "ubuntu", id_like := none, name := some "Ubuntu"
            pretty_name := none, version := none, version_id := none
            version_codename := none, cpe_name := none, build_id := none
            variant := none, variant_id := none } }).2 _ rfl⟩


lemma string_data_append (s t : String) : (s ++ t).data = s.data ++ t.data := rfl

lemma digitChar_digit : ∀ m, m < 10 → 48 ≤ (Nat.digitChar m).toNat ∧ (Nat.digitChar m).toNat ≤ 57 := by
  decide

lemma natDecAux_digits (n : Nat) : ∀ acc, (∀ c ∈ acc, 48 ≤ c.toNat ∧ c.toNat ≤ 57) →
    ∀ c ∈ natDecAux n acc, 48 ≤ c.toNat ∧ c.toNat ≤ 57 := by
  induction n using Nat.strong_induction_on with
  | _ n ih =>
    intro acc hacc c hc
    rw [natDecAux] at hc
    split at hc
    case isTrue h =>
      rcases List.mem_cons.mp hc with h1 | h1
      · subst h1; exact digitChar_digit n h
      · exact hacc c h1
    case isFalse h =>
      refine ih (n / 10) (Nat.div_lt_self (by omega) (by omega)) _ ?_ c hc
      intro c' hc'
      rcases List.mem_cons.mp hc' with h1 | h1
      · subst h1; exact digitChar_digit (n % 10) (Nat.mod_lt n (by omega))
      · exact hacc c' h1

lemma natDecAux_ne_nil (n : Nat) : ∀ acc, natDecAux n acc ≠ [] := by
  induction n using Nat.strong_induction_on with
  | _ n ih =>
    intro acc
    rw [natDecAux]
    split
    · exact List.cons_ne_nil _ _
    · exact ih (n / 10) (Nat.div_lt_self (by omega) (by omega)) _

lemma natDec_digits (n : Nat) : ∀ c ∈ (natDec n).data, 48 ≤ c.toNat ∧ c.toNat ≤ 57 :=
  natDecAux_digits n [] (by simp)

lemma natDec_no_nl (n : Nat) (h : '\n' ∈ (natDec n).data) : False := by
  have := natDec_digits n _ h
  exact (by decide : ¬(48 ≤ ('\n').toNat ∧ ('\n').toNat ≤ 57)) this

lemma natDec_getLast_ne_nl (n : Nat) : (natDec n).data.getLast? ≠ some '\n' := by
  intro h
  have hm : '\n' ∈ (natDec n).data := by
    have h2 := List.mem_getLast?_eq_getLast (l := (natDec n).data) (x := '\n') h
    obtain ⟨hne, heq⟩ := h2
    rw [heq]
    exact List.getLast_mem hne
  exact natDec_no_nl n hm

lemma natDec_ne_nil (n : Nat) : (natDec n).data ≠ [] := natDecAux_ne_nil n []

lemma hexDigit_ne_nl (n : Nat) : hexDigit n ≠ '\n' := by
  have hb : ∀ m, m < 16 → hexDigits.getD m '0' ≠ '\n' := by decide
  exact hb (n % 16) (Nat.mod_lt n (by omega))

lemma escChar_no_nl (c : Char) (h : '\n' ∈ escChar c) : False := by
  simp only [escChar] at h
  split at h
  · simp [bslash] at h
  · split at h
    · simp [bslash] at h
    · split at h
      · simp [bslash] at h
      · split at h
        · simp [bslash] at h
        · split at h
          · simp [bslash] at h
          · split at h
            · simp [bslash] at h
              rcases h with h | h <;> exact hexDigit_ne_nl _ h.symm
            · simp at h
              rename_i h1 h2 h3 h4 h5 h6
              subst h
              exact h3 rfl

lemma escapeStr_no_nl (v : String) (h : '\n' ∈ (escapeStr v).data) : False := by
  simp only [escapeStr] at h
  rcases List.mem_flatMap.mp h with ⟨c, _, hc⟩
  exact escChar_no_nl c hc

lemma plain_no_nl (v : String) (hq : need_quotes v = false) (h : '\n' ∈ v.data) : False := by
  simp only [need_quotes, Bool.or_eq_false_iff] at hq
  have hany := hq.1.1.2
  rw [List.any_eq_false] at hany
  have := hany _ h
  exact this (by decide)

lemma emitStr_no_nl (v : String) (h : '\n' ∈ (emitStr v).data) : False := by
  by_cases hq : need_quotes v
  · simp only [emitStr, hq, if_pos, string_data_append] at h
    rcases List.mem_append.mp h with h1 | h1
    · rcases List.mem_append.mp h1 with h2 | h2
      · simp at h2
      · exact escapeStr_no_nl v h2
    · simp at h1
  · rw [emitStr, if_neg (by simp [hq])] at h
    exact plain_no_nl v (by simp [hq]) h

lemma emitOptStr_no_nl (o : Option String) (h : '\n' ∈ (emitOptStr o).data) : False := by
  cases o with
  | none => simp [emitOptStr] at h
  | some v => exact emitStr_no_nl v h

lemma emitOptNat_no_nl (o : Option Nat) (h : '\n' ∈ (emitOptNat o).data) : False := by
  cases o with
  | none => simp [emitOptNat] at h
  | some n => exact natDec_no_nl n h

lemma serdeLine_no_nl (k v : String)
    (hk : '\n' ∈ k.data → False) (hv : '\n' ∈ v.data → False)
    (h : '\n' ∈ (serdeLine k v).data) : False := by
  simp only [serdeLine, string_data_append] at h
  rcases List.mem_append.mp h with h1 | h1
  · rcases List.mem_append.mp h1 with h2 | h2
    · exact hk h2
    · simp at h2
  · exact hv h1

lemma indent_no_nl (l : String) (hl : '\n' ∈ l.data → False)
    (h : '\n' ∈ (("  " ++ l) : String).data) : False := by
  simp only [string_data_append] at h
  rcases List.mem_append.mp h with h1 | h1
  · simp at h1
  · exact hl h1

lemma dist_yamlLines_no_nl (d : Distribution) :
    ∀ l ∈ Distribution.yamlLines d, '\n' ∈ l.data → False := by
  intro l hl
  simp only [Distribution.yamlLines, List.mem_cons, List.mem_nil_iff, or_false] at hl
  rcases hl with h | h | h | h | h | h | h | h | h | h | h <;> subst h <;>
    exact fun hn => serdeLine_no_nl _ _ (by decide) (emitOptStr_no_nl _) hn

lemma systemInfo_yamlLines_no_nl (s : SystemInfo) :
    ∀ l ∈ SystemInfo.yamlLines s, '\n' ∈ l.data → False := by
  intro l hl
  cases hd : s.distribution with
  | none =>
    rw [SystemInfo.yamlLines, hd] at hl
    simp only [distBlockLines, List.append_assoc, List.cons_append, List.nil_append,
      List.mem_cons, List.mem_nil_iff, or_false] at hl
    rcases hl with h | h | h | h | h | h | h | h | h <;> subst h <;>
      first
      | (exact fun hn => serdeLine_no_nl _ _ (by decide) (emitOptStr_no_nl _) hn)
      | (exact fun hn => serdeLine_no_nl _ _ (by decide) (emitOptNat_no_nl _) hn)
      | (exact fun hn => serdeLine_no_nl _ _ (by decide) (natDec_no_nl _) hn)
      | (exact fun hn => serdeLine_no_nl _ _ (by decide) (by decide) hn)
  | some d =>
    rw [SystemInfo.yamlLines, hd] at hl
    simp only [distBlockLines, List.append_assoc, List.cons_append, List.nil_append,
      List.mem_cons, List.mem_nil_iff, or_false, List.mem_append, List.mem_map] at hl
    rcases hl with h | h | h | h | h | h | h | h | h | h
    case _ => subst h; exact fun hn => serdeLine_no_nl _ _ (by decide) (emitOptStr_no_nl _) hn
    case _ => subst h; exact fun hn => serdeLine_no_nl _ _ (by decide) (emitOptStr_no_nl _) hn
    case _ => subst h; exact (by decide : '\n' ∈ ("Distribution:" : String).data → False)
    case _ =>
      obtain ⟨l0, hl0, hmap⟩ := h
      subst hmap
      exact indent_no_nl l0 (dist_yamlLines_no_nl d l0 hl0)
    case _ => subst h; exact fun hn => serdeLine_no_nl _ _ (by decide) (emitOptNat_no_nl _) hn
    case _ => subst h; exact fun hn => serdeLine_no_nl _ _ (by decide) (emitOptNat_no_nl _) hn
    case _ => subst h; exact fun hn => serdeLine_no_nl _ _ (by decide) (emitOptStr_no_nl _) hn
    case _ => subst h; exact fun hn => serdeLine_no_nl _ _ (by decide) (natDec_no_nl _) hn
    case _ => subst h; exact fun hn => serdeLine_no_nl _ _ (by decide) (natDec_no_nl _) hn
    case _ => subst h; exact fun hn => serdeLine_no_nl _ _ (by decide) (emitOptNat_no_nl _) hn

lemma trim_marker (X : List Char) :
    trimStartDocSep ('-' :: '-' :: '-' :: '\n' :: X) = trimStartDocSep X := by
  rw [trimStartDocSep]
  simp

lemma trim_O (t : List Char) : trimStartDocSep ('O' :: t) = 'O' :: t := by
  rw [trimStartDocSep]
  rw [dif_neg]
  intro hc
  rw [List.take_succ_cons] at hc
  simp at hc

lemma joinLines_getLast : ∀ (ls : List String) (l : String), l.data ≠ [] →
    (joinLines (ls ++ [l])).data.getLast? = l.data.getLast? := by
  intro ls
  induction ls with
  | nil => intro l _; simp [joinLines]
  | cons a t ih =>
    intro l hl
    cases t with
    | nil =>
      show ((a ++ "\n" ++ joinLines [l])).data.getLast? = l.data.getLast?
      simp only [joinLines, string_data_append]
      rw [List.getLast?_append_of_ne_nil _ hl]
    | cons b t2 =>
      show ((a ++ "\n" ++ joinLines (b :: (t2 ++ [l])))).data.getLast? = l.data.getLast?
      have hne : (joinLines ((b :: t2) ++ [l])).data ≠ [] := by
        intro hnil
        have := ih l hl
        rw [hnil] at this
        have hsome := List.getLast?_isSome.mpr hl
        rw [← this] at hsome
        simp at hsome
      simp only [string_data_append]
      rw [List.getLast?_append_of_ne_nil _ (by simpa using hne)]
      exact ih l hl

lemma as_yaml_data (s : SystemInfo) :
    (SystemInfo.as_yaml s).data = (joinLines (SystemInfo.yamlLines s)).data ++ ['\n'] := by
  obtain ⟨t, ht⟩ : ∃ t, (joinLines (SystemInfo.yamlLines s)).data = 'O' :: t := ⟨_, rfl⟩
  show (String.mk (trimStartDocSep ("---\n" ++ joinLines (SystemInfo.yamlLines s)).data) ++ "\n").data = _
  have h1 : ("---\n" ++ joinLines (SystemInfo.yamlLines s)).data
      = '-' :: '-' :: '-' :: '\n' :: (joinLines (SystemInfo.yamlLines s)).data := rfl
  rw [h1, trim_marker, ht, trim_O, ← ht]
  rfl

/-- C6: for every `SystemInfo` value, the text returned by `as_yaml` does not
begin with a document-separator marker (its first three characters are never
the marker; in fact the text starts directly with the first key line), and it
ends with exactly one trailing newline (the text is some content followed by
a final newline, and that content does not itself end in a newline). -/
theorem as_yaml_no_doc_sep_one_newline (s : SystemInfo) :
    ((SystemInfo.as_yaml s).data.take 3 = ['-', '-', '-'] → False)
  ∧ (∃ l, (SystemInfo.as_yaml s).data = l ++ ['\n'] ∧ l.getLast? ≠ some '\n') := by
  have hd := as_yaml_data s
  constructor
  · intro h
    obtain ⟨t, ht⟩ : ∃ t, (joinLines (SystemInfo.yamlLines s)).data = 'O' :: t := ⟨_, rfl⟩
    rw [hd, ht] at h
    simp only [List.cons_append, List.take_succ_cons] at h
    injection h with h1 _
    exact absurd h1 (by decide)
  · refine ⟨(joinLines (SystemInfo.yamlLines s)).data, hd, ?_⟩
    have hvne : (emitOptNat s.cpu_speed).data ≠ [] := by
      cases hc : s.cpu_speed with
      | none => simp [emitOptNat]
      | some n => exact natDec_ne_nil n
    have hlne : (serdeLine "CpuSpeed" (emitOptNat s.cpu_speed)).data ≠ [] :=
      List.cons_ne_nil _ _
    have hform : SystemInfo.yamlLines s =
      ([serdeLine "OsType" (emitOptStr s.os_type),
        serdeLine "OsRelease" (emitOptStr s.os_release)]
       ++ distBlockLines s.distribution
       ++ [serdeLine "MemoryTotal" (emitOptNat s.memory_total),
           serdeLine "SwapTotal" (emitOptNat s.swap_total),
           serdeLine "Hostname" (emitOptStr s.hostname),
           serdeLine "CpuCount" (natDec s.cpu_count),
           serdeLine "CpuOnlineCount" (natDec s.cpu_online_count)])
      ++ [serdeLine "CpuSpeed" (emitOptNat s.cpu_speed)] := by
      simp [SystemInfo.yamlLines]
    rw [hform, joinLines_getLast _ _ hlne]
    have hsplit : (serdeLine "CpuSpeed" (emitOptNat s.cpu_speed)).data
        = ("CpuSpeed: " : String).data ++ (emitOptNat s.cpu_speed).data := rfl
    rw [hsplit, List.getLast?_append_of_ne_nil _ hvne]
    cases hc : s.cpu_speed with
    | none => simp [emitOptNat]
    | some n => exact natDec_getLast_ne_nl n

/-- Closed witness for C6 at a concrete snapshot. -/
theorem as_yaml_no_doc_sep_one_newline_witness :
    ((SystemInfo.as_yaml allAbsentSnapshot).data.take 3 = ['-', '-', '-'] → False)
  ∧ (∃ l, (SystemInfo.as_yaml allAbsentSnapshot).data = l ++ ['\n']
      ∧ l.getLast? ≠ some '\n') :=
  as_yaml_no_doc_sep_one_newline allAbsentSnapshot

/-- C7: if the underlying formatter fails, `as_yaml` does not fail or
propagate the error: the `unwrap_or_else` branch substitutes the empty
string, so the operation returns the empty document (no content lines at
all, just the single trailing newline every rendering carries). -/
theorem as_yaml_formatter_failure_empty :
    as_yaml_of (Except.error ()) = "\n" := by
  show String.mk (trimStartDocSep ("" : String).data) ++ "\n" = "\n"
  rw [trimStartDocSep]
  simp

/-- C8: the rendered document has one top-level line per declared
`SystemInfo` key, in declaration order, for every snapshot (so the key set
is the same for all snapshots); a snapshot with every optional field absent
still lists every key with the explicit null marker `~` rather than
omitting the line; and no output line contains an embedded newline (each
listed line is one physical line of the document). -/
theorem yaml_document_lists_every_key :
    (∀ s : SystemInfo, topKeys s =
      ["OsType", "OsRelease", "Distribution", "MemoryTotal", "SwapTotal",
       "Hostname", "CpuCount", "CpuOnlineCount", "CpuSpeed"])
  ∧ (∀ a b : Nat, SystemInfo.yamlLines
      { os_type := none, os_release := none, distribution := none,
        memory_total := none, swap_total := none, hostname := none,
        cpu_count := a, cpu_online_count := b, cpu_speed := none } =
      ["OsType: ~", "OsRelease: ~", "Distribution: ~", "MemoryTotal: ~",
       "SwapTotal: ~", "Hostname: ~", "CpuCount: " ++ natDec a,
       "CpuOnlineCount: " ++ natDec b, "CpuSpeed: ~"])
  ∧ (∀ s : SystemInfo, ∀ l ∈ SystemInfo.yamlLines s, ('\n' ∈ l.data) → False) := by
  refine ⟨?_, ?_, fun s l hl => systemInfo_yamlLines_no_nl s l hl⟩
  · intro s
    cases hd : s.distribution with
    | none => unfold topKeys SystemInfo.yamlLines; rw [hd]; rfl
    | some d => unfold topKeys SystemInfo.yamlLines; rw [hd]; rfl
  · intro a b
    rfl

/-- Closed witness for C8. -/
theorem yaml_document_lists_every_key_witness :
    (('\n' ∈ ("OsType: ~" : String).data) → False)
  ∧ topKeys allAbsentSnapshot =
      ["OsType", "OsRelease", "Distribution", "MemoryTotal", "SwapTotal",
       "Hostname", "CpuCount", "CpuOnlineCount", "CpuSpeed"] :=
  ⟨yaml_document_lists_every_key.2.2 allAbsentSnapshot "OsType: ~" (List.mem_cons_self _ _),
   yaml_document_lists_every_key.1 allAbsentSnapshot⟩

/-- C9: rendering is deterministic: two invocations of `as_yaml` on the
same snapshot value yield byte-identical text.  The embedding of `as_yaml`
is a pure function of the snapshot (the source takes `&self` and mutates
nothing), so the snapshot is unchanged by rendering by construction. -/
theorem as_yaml_deterministic (s t : SystemInfo) (h : t = s) :
    SystemInfo.as_yaml t = SystemInfo.as_yaml s := by rw [h]

/-- Closed witness for C9. -/
theorem as_yaml_deterministic_witness :
    SystemInfo.as_yaml allAbsentSnapshot = SystemInfo.as_yaml allAbsentSnapshot :=
  as_yaml_deterministic allAbsentSnapshot allAbsentSnapshot rfl

/-- C10: the key names in the rendered document are the PascalCase
renamings of the snake_case field names: the top-level keys are OsType,
OsRelease, Distribution, MemoryTotal, SwapTotal, Hostname, CpuCount,
CpuOnlineCount, CpuSpeed, and the nested block under `Distribution` uses
Id, IdLike, Name, PrettyName, Version, VersionId, VersionCodename, CpeName,
BuildId, Variant, VariantId. -/
theorem pascal_case_keys :
    (∀ s : SystemInfo, topKeys s =
      ["OsType", "OsRelease", "Distribution", "MemoryTotal", "SwapTotal",
       "Hostname", "CpuCount", "CpuOnlineCount", "CpuSpeed"])
  ∧ (∀ d : Distribution, (Distribution.yamlLines d).map keyOf =
      ["Id", "IdLike", "Name", "PrettyName", "Version", "VersionId",
       "VersionCodename", "CpeName", "BuildId", "Variant", "VariantId"])
  ∧ (∀ (s : SystemInfo) (d : Distribution), s.distribution = some d →
      (SystemInfo.yamlLines s).filter (fun l => isIndented l) =
        (Distribution.yamlLines d).map (fun l => "  " ++ l)) := by
  refine ⟨?_, fun d => rfl, ?_⟩
  · intro s
    cases hd : s.distribution with
    | none => unfold topKeys SystemInfo.yamlLines; rw [hd]; rfl
    | some d => unfold topKeys SystemInfo.yamlLines; rw [hd]; rfl
  · intro s d h
    unfold SystemInfo.yamlLines
    rw [h]
    rfl

/-- Closed witness for C10. -/
theorem pascal_case_keys_witness :
    (SystemInfo.yamlLines withDistSnapshot).filter (fun l => isIndented l) =
      (Distribution.yamlLines sampleDistribution).map (fun l => "  " ++ l) :=
  pascal_case_keys.2.2 withDistSnapshot sampleDistribution rfl
